import Mathlib

/-!
Shallow embedding of the governance-proposal core of the `gov-contracts`
repository, together with proofs about its status-resolution and
threshold arithmetic.

Modelling conventions:
* `u128` values are embedded as `Nat`.  The contract is compiled with
  overflow checks, so a `u128` subtraction that would underflow aborts the
  transaction; we embed every source-level subtraction through `checkedSub`,
  which returns `none` exactly when the source would abort.  Additions and
  the fixed-point multiplication are embedded exactly on `Nat` (they agree
  with the machine on every non-aborting run, and no claim concerns
  addition overflow).
* `cosmwasm_std::Decimal` is a fixed-point number with 18 fractional
  decimal digits; we embed it as its `Nat` atomics (value = atomics / 10^18).
  `Decimal * Uint128` multiplies into a 256-bit intermediate and floors:
  `floor(atomics * u / 10^18)`, which is what `votes_needed` relies on.
* Fallible functions return `Option`/`Except`.
-/

namespace Gov

/-- Fixed-point scaling factor used by `votes_needed` (`PRECISION_FACTOR`
in `state.rs`). -/
def PRECISION_FACTOR : Nat := 1000000000

/-- Number of atomics in `Decimal::one()`: `10^18`. -/
def DECIMAL_FRACTIONAL : Nat := 1000000000000000000

/-- Atomics of `Decimal::percent(x)` = `x * 10^16`. -/
def decimalPercent (x : Nat) : Nat := x * 10000000000000000

/-- Checked subtraction: the embedding of a `u128` (or `Decimal`) subtraction
that aborts on underflow.  `none` exactly when the source would panic. -/
def checkedSub (a b : Nat) : Option Nat :=
  if b ≤ a then some (a - b) else none

/-- `cw3::Vote`. -/
inductive Vote where
  | Yes
  | No
  | Abstain
  | Veto
deriving DecidableEq, Repr

/-- `cw3::Status`.  Only `Open`, `Passed`, `Rejected` are produced by this
core, but the full enum is kept. -/
inductive Status where
  | Pending
  | Open
  | Rejected
  | Passed
  | Executed
deriving DecidableEq, Repr

/-- `cosmwasm_std::BlockInfo`: the clock input supplied by the caller.
`time` is the timestamp in nanoseconds. -/
structure BlockInfo where
  height : Nat
  time : Nat
  chain_id : String
deriving DecidableEq, Repr

/-- `cw_utils::Expiration`. -/
inductive Expiration where
  | AtHeight (height : Nat)
  | AtTime (time : Nat)
  | Never
deriving DecidableEq, Repr

/-- `Expiration::is_expired(block)`: height- or time-based comparison
against the supplied clock. -/
def Expiration.is_expired (e : Expiration) (block : BlockInfo) : Bool :=
  match e with
  | .AtHeight height => decide (height ≤ block.height)
  | .AtTime time => decide (time ≤ block.time)
  | .Never => false

/-- `cw_utils::Threshold`: the three pass policies.  Fractions are stored
as `Decimal` atomics. -/
inductive Threshold where
  | AbsoluteCount (weight : Nat)
  | AbsolutePercentage (percentage : Nat)
  | ThresholdQuorum (threshold : Nat) (quorum : Nat)
deriving DecidableEq, Repr

/-- `Votes` from `state.rs`: per-option weight accumulators. -/
structure Votes where
  yes : Nat
  no : Nat
  abstain : Nat
  veto : Nat
deriving DecidableEq, Repr

/-- `Votes::total()`: sum of all four buckets. -/
def Votes.total (v : Votes) : Nat :=
  v.yes + v.no + v.abstain + v.veto

/-- `Votes::add_vote(vote, weight)`: adds `weight` to the bucket selected
by `vote`. -/
def Votes.add_vote (v : Votes) (vote : Vote) (weight : Nat) : Votes :=
  match vote with
  | .Yes => { v with yes := v.yes + weight }
  | .Abstain => { v with abstain := v.abstain + weight }
  | .No => { v with no := v.no + weight }
  | .Veto => { v with veto := v.veto + weight }

/-- `cosmwasm_std::Coin`. -/
structure Coin where
  denom : String
  amount : Nat
deriving DecidableEq, Repr

/-- `Proposal` from `state.rs`.  The `msgs` field (a vector of outbound
bindings messages whose type lives outside the sources supplied here) is
omitted: no function under verification inspects it. -/
structure Proposal where
  title : String
  description : String
  start_height : Nat
  expires : Expiration
  status : Status
  threshold : Threshold
  total_weight : Nat
  votes : Votes
  deposit : List Coin
  proposer : String
  token_denom : String
  deposit_refunded : Bool
  min_deposit : Nat
  deposit_denom : String
  current_deposit : Nat
deriving DecidableEq, Repr

/-- `votes_needed(weight, percentage)` from `state.rs`:
`applied = percentage * Uint128::new(PRECISION_FACTOR * weight)` (the
`Decimal * Uint128` product floors at `10^18`), then ceiling division of
`applied` by `PRECISION_FACTOR`. -/
def votes_needed (weight : Nat) (percentage : Nat) : Nat :=
  (percentage * (PRECISION_FACTOR * weight) / DECIMAL_FRACTIONAL
      + PRECISION_FACTOR - 1) / PRECISION_FACTOR

/-- `Proposal::is_passed(block)`.  `none` models an aborting underflow in
one of the source's subtractions. -/
def Proposal.is_passed (p : Proposal) (block : BlockInfo) : Option Bool :=
  match p.threshold with
  | .AbsoluteCount weight_needed =>
      some (decide (weight_needed ≤ p.votes.yes))
  | .AbsolutePercentage percentage_needed =>
      match checkedSub p.total_weight p.votes.abstain with
      | none => none
      | some pool =>
          some (decide (votes_needed pool percentage_needed ≤ p.votes.yes))
  | .ThresholdQuorum threshold quorum =>
      -- we always require the quorum
      if p.votes.total < votes_needed p.total_weight quorum then
        some false
      else if p.expires.is_expired block then
        -- if expired, compare against the total number of votes (minus abstain)
        match checkedSub p.votes.total p.votes.abstain with
        | none => none
        | some opinions =>
            some (decide (votes_needed opinions threshold ≤ p.votes.yes))
      else
        -- if not expired, assume all non-votes will be cast against
        match checkedSub p.total_weight p.votes.abstain with
        | none => none
        | some possible_opinions =>
            some (decide (votes_needed possible_opinions threshold ≤ p.votes.yes))

/-- `Proposal::is_rejected(block)`.  `none` models an aborting underflow
(in particular `Decimal::one() - fraction` when the fraction exceeds one). -/
def Proposal.is_rejected (p : Proposal) (block : BlockInfo) : Option Bool :=
  match p.threshold with
  | .AbsoluteCount weight_needed =>
      match checkedSub p.total_weight weight_needed with
      | none => none
      | some weight => some (decide (weight < p.votes.no))
  | .AbsolutePercentage percentage_needed =>
      match checkedSub p.total_weight p.votes.abstain with
      | none => none
      | some pool =>
          match checkedSub DECIMAL_FRACTIONAL percentage_needed with
          | none => none
          | some opposing =>
              some (decide (votes_needed pool opposing < p.votes.no))
  | .ThresholdQuorum threshold _quorum =>
      if p.expires.is_expired block then
        match checkedSub p.votes.total p.votes.abstain with
        | none => none
        | some opinions =>
            match checkedSub DECIMAL_FRACTIONAL threshold with
            | none => none
            | some opposing =>
                some (decide (votes_needed opinions opposing < p.votes.no))
      else
        match checkedSub p.total_weight p.votes.abstain with
        | none => none
        | some possible_opinions =>
            match checkedSub DECIMAL_FRACTIONAL threshold with
            | none => none
            | some opposing =>
                some (decide (votes_needed possible_opinions opposing < p.votes.no))

/-- `Proposal::current_status(block)`: non-mutating status resolution.
The source's `&&` and `||` short-circuit, so `is_passed` is consulted only
when the stored status is `Open`, and `is_rejected` only when additionally
`is_passed` returned `false`. -/
def Proposal.current_status (p : Proposal) (block : BlockInfo) : Option Status :=
  if p.status = Status.Open then
    match p.is_passed block with
    | none => none
    | some true => some Status.Passed
    | some false =>
        match p.is_rejected block with
        | none => none
        | some rejected =>
            if rejected || p.expires.is_expired block then
              some Status.Rejected
            else
              some Status.Open
  else
    some p.status

/-- `Proposal::update_status(block)`: stores `current_status` back into the
proposal. -/
def Proposal.update_status (p : Proposal) (block : BlockInfo) : Option Proposal :=
  (p.current_status block).map (fun s => { p with status := s })

/-- The two mutations the dispatch layer can apply to a stored proposal:
forwarding a cast vote into the tally, and advancing the status. -/
inductive Op where
  | CastVote (v : Vote) (weight : Nat)
  | UpdateStatus (block : BlockInfo)

/-- One dispatch-layer mutation applied to a proposal. -/
def step (p : Proposal) (op : Op) : Option Proposal :=
  match op with
  | .CastVote v w => some { p with votes := p.votes.add_vote v w }
  | .UpdateStatus block => p.update_status block

/-- A sequence of mutations, aborting as soon as one aborts. -/
def runOps (p : Proposal) : List Op → Option Proposal
  | [] => some p
  | op :: ops => (step p op).bind (fun q => runOps q ops)

/-- Modelled from the spec: the contract's error type (`error.rs` is not
among the supplied sources).  Variants are the spec's error kinds —
`InvalidThreshold`, `ZeroQuorumThreshold`, `UnreachableQuorumThreshold`,
`DifferentAppID`, `ProposalError` wrapping the validator's rejection
reason verbatim, `AlreadyVoted` — plus `Std`, the conventional wrapper for
a propagated standard (query/transport) error. -/
inductive ContractError where
  | Std (msg : String)
  | InvalidThreshold
  | ZeroQuorumThreshold
  | UnreachableQuorumThreshold
  | DifferentAppID
  | ProposalError (err : String)
  | AlreadyVoted
deriving DecidableEq, Repr

/-- `validate_threshold(threshold, quorum)` from `validation.rs`, on
`Decimal` atomics: threshold must lie in `[percent 50, percent 100]`
(checked first), then quorum must be nonzero, then quorum must not exceed
one. -/
def validate_threshold (threshold quorum : Nat) : Except ContractError Unit :=
  if decimalPercent 100 < threshold ∨ threshold < decimalPercent 50 then
    Except.error ContractError.InvalidThreshold
  else if quorum = 0 then
    Except.error ContractError.ZeroQuorumThreshold
  else if DECIMAL_FRACTIONAL < quorum then
    Except.error ContractError.UnreachableQuorumThreshold
  else
    Except.ok ()

/-- The custom query enum of the bindings package (`FuryQuery`), restricted
to the validation variants used by `validation.rs`.  The bindings source
file declaring the variants is not among the supplied sources; each
variant's name and fields are taken from its construction site in
`validation.rs`. -/
inductive FuryQuery where
  | UpdatePairsVaultQuery (app_id ext_pair_id : Nat)
  | UpdateCollectorLookupTableQuery (app_id asset_id : Nat)
  | RemoveWhitelistAssetLockerQuery (app_id asset_id : Nat)
  | RemoveWhitelistAppIdVaultInterestQuery (app_id : Nat)
  | WhitelistAppIdLiquidationQuery (app_id : Nat)
  | RemoveWhitelistAppIdLiquidationQuery (app_id : Nat)
  | WhitelistAppIdLockerRewards (app_id asset_id : Nat)
  | WhiteListedAssetQuery (app_id asset_id : Nat)
  | CollectorLookupTableQuery (app_id collector_asset_id secondary_asset_id : Nat)
  | AuctionMappingForAppQuery (app_id : Nat)
  | ExtendedPairsVaultRecordsQuery (app_id pair_id : Nat)
      (stability_fee closing_fee draw_down_fee : Nat)
      (debt_ceiling debt_floor : Nat) (pair_name : String)
  | WhitelistAppIdVaultInterest (app_id : Nat)
  | AddESMTriggerParamsForAppQuery (app_id : Nat)
deriving DecidableEq, Repr

/-- The validator capability's response: `found` plus an error payload. -/
structure MessageValidateResponse where
  found : Bool
  err : String
deriving DecidableEq, Repr

/-- `ExtendedPair` from `msg.rs` (not among the supplied sources); field
names are taken from their use in `add_extended_pair_vault`, fee and
ceiling fields embedded as `Nat`. -/
structure ExtendedPair where
  app_mapping_id_param : Nat
  pair_id_param : Nat
  stability_fee_param : Nat
  closing_fee_param : Nat
  draw_down_fee_param : Nat
  debt_ceiling_param : Nat
  debt_floor_param : Nat
  pair_name_param : String
deriving DecidableEq, Repr

/-- The external querier capability (`deps.querier.query::<MessageValidateResponse>`):
a synchronous call that either returns a response or fails with a standard
error. -/
def Querier := FuryQuery → Except String MessageValidateResponse

/-- The query/inspect block every validation helper ends with: issue the
query (recording it), propagate a transport error, and turn
`found = false` into `ProposalError` carrying the response's `err`
verbatim.  The second component is the list of queries issued, so that
"zero external calls" is observable. -/
def run_validation_query (querier : Querier) (query : FuryQuery) :
    Except ContractError Unit × List FuryQuery :=
  match querier query with
  | Except.error e => (Except.error (ContractError.Std e), [query])
  | Except.ok query_result =>
      if query_result.found then
        (Except.ok (), [query])
      else
        (Except.error (ContractError.ProposalError query_result.err), [query])

/-- `update_pairvault_stability` from `validation.rs`. -/
def update_pairvault_stability (querier : Querier)
    (app_mapping_id_param ext_pair_id_param app_id : Nat) :
    Except ContractError Unit × List FuryQuery :=
  if app_mapping_id_param ≠ app_id then
    (Except.error ContractError.DifferentAppID, [])
  else
    run_validation_query querier
      (FuryQuery.UpdatePairsVaultQuery app_mapping_id_param ext_pair_id_param)

/-- `update_locker_lsr` from `validation.rs`. -/
def update_locker_lsr (querier : Querier)
    (app_mapping_id_param asset_id_param app_id : Nat) :
    Except ContractError Unit × List FuryQuery :=
  if app_mapping_id_param ≠ app_id then
    (Except.error ContractError.DifferentAppID, [])
  else
    run_validation_query querier
      (FuryQuery.UpdateCollectorLookupTableQuery app_mapping_id_param asset_id_param)

/-- `remove_whitelist_asset_locker` from `validation.rs`. -/
def remove_whitelist_asset_locker (querier : Querier)
    (app_mapping_id_param asset_id_param app_id : Nat) :
    Except ContractError Unit × List FuryQuery :=
  if app_mapping_id_param ≠ app_id then
    (Except.error ContractError.DifferentAppID, [])
  else
    run_validation_query querier
      (FuryQuery.RemoveWhitelistAssetLockerQuery app_mapping_id_param asset_id_param)

/-- `remove_whitelist_app_id_vault_interest` from `validation.rs`. -/
def remove_whitelist_app_id_vault_interest (querier : Querier)
    (app_mapping_id_param app_id : Nat) :
    Except ContractError Unit × List FuryQuery :=
  if app_mapping_id_param ≠ app_id then
    (Except.error ContractError.DifferentAppID, [])
  else
    run_validation_query querier
      (FuryQuery.RemoveWhitelistAppIdVaultInterestQuery app_mapping_id_param)

/-- `whitelist_app_id_liquidation` from `validation.rs`. -/
def whitelist_app_id_liquidation (querier : Querier)
    (app_mapping_id_param app_id : Nat) :
    Except ContractError Unit × List FuryQuery :=
  if app_mapping_id_param ≠ app_id then
    (Except.error ContractError.DifferentAppID, [])
  else
    run_validation_query querier
      (FuryQuery.WhitelistAppIdLiquidationQuery app_mapping_id_param)

/-- `remove_whitelist_app_id_liquidation` from `validation.rs`. -/
def remove_whitelist_app_id_liquidation (querier : Querier)
    (app_mapping_id_param app_id : Nat) :
    Except ContractError Unit × List FuryQuery :=
  if app_mapping_id_param ≠ app_id then
    (Except.error ContractError.DifferentAppID, [])
  else
    run_validation_query querier
      (FuryQuery.RemoveWhitelistAppIdLiquidationQuery app_mapping_id_param)

/-- `whitelist_asset_locker_rewards` from `validation.rs`. -/
def whitelist_asset_locker_rewards (querier : Querier)
    (app_mapping_id_param asset_id_param app_id : Nat) :
    Except ContractError Unit × List FuryQuery :=
  if app_mapping_id_param ≠ app_id then
    (Except.error ContractError.DifferentAppID, [])
  else
    run_validation_query querier
      (FuryQuery.WhitelistAppIdLockerRewards app_mapping_id_param asset_id_param)

/-- `whitelist_asset_locker_eligible` from `validation.rs`. -/
def whitelist_asset_locker_eligible (querier : Querier)
    (app_mapping_id_param asset_id_param app_id : Nat) :
    Except ContractError Unit × List FuryQuery :=
  if app_mapping_id_param ≠ app_id then
    (Except.error ContractError.DifferentAppID, [])
  else
    run_validation_query querier
      (FuryQuery.WhiteListedAssetQuery app_mapping_id_param asset_id_param)

/-- `collector_lookup_table` from `validation.rs`. -/
def collector_lookup_table (querier : Querier)
    (app_mapping_id_param collector_asset_id_param secondary_asset_id_param app_id : Nat) :
    Except ContractError Unit × List FuryQuery :=
  if app_mapping_id_param ≠ app_id then
    (Except.error ContractError.DifferentAppID, [])
  else
    run_validation_query querier
      (FuryQuery.CollectorLookupTableQuery app_mapping_id_param
        collector_asset_id_param secondary_asset_id_param)

/-- `auction_mapping_for_app` from `validation.rs`. -/
def auction_mapping_for_app (querier : Querier)
    (app_mapping_id_param app_id : Nat) :
    Except ContractError Unit × List FuryQuery :=
  if app_mapping_id_param ≠ app_id then
    (Except.error ContractError.DifferentAppID, [])
  else
    run_validation_query querier
      (FuryQuery.AuctionMappingForAppQuery app_mapping_id_param)

/-- The query `add_extended_pair_vault` builds from an `ExtendedPair`. -/
def extended_pair_query (extended_pair : ExtendedPair) : FuryQuery :=
  FuryQuery.ExtendedPairsVaultRecordsQuery
    extended_pair.app_mapping_id_param
    extended_pair.pair_id_param
    extended_pair.stability_fee_param
    extended_pair.closing_fee_param
    extended_pair.draw_down_fee_param
    extended_pair.debt_ceiling_param
    extended_pair.debt_floor_param
    extended_pair.pair_name_param

/-- `add_extended_pair_vault` from `validation.rs`: the id embedded in the
payload (`extended_pair.app_mapping_id_param`) must match `app_id`. -/
def add_extended_pair_vault (querier : Querier)
    (app_id : Nat) (extended_pair : ExtendedPair) :
    Except ContractError Unit × List FuryQuery :=
  if extended_pair.app_mapping_id_param ≠ app_id then
    (Except.error ContractError.DifferentAppID, [])
  else
    run_validation_query querier (extended_pair_query extended_pair)

/-- `whitelist_app_id_vault_interest` from `validation.rs`. -/
def whitelist_app_id_vault_interest (querier : Querier)
    (app_mapping_id_param app_id : Nat) :
    Except ContractError Unit × List FuryQuery :=
  if app_mapping_id_param ≠ app_id then
    (Except.error ContractError.DifferentAppID, [])
  else
    run_validation_query querier
      (FuryQuery.WhitelistAppIdVaultInterest app_mapping_id_param)

/-- `set_esm_params` from `validation.rs`. -/
def set_esm_params (querier : Querier)
    (app_mapping_id_param app_id : Nat) :
    Except ContractError Unit × List FuryQuery :=
  if app_mapping_id_param ≠ app_id then
    (Except.error ContractError.DifferentAppID, [])
  else
    run_validation_query querier
      (FuryQuery.AddESMTriggerParamsForAppQuery app_mapping_id_param)

/-- Spec-side definition, following the spec's words, for comparison with
the source's `votes_needed`: the exact ceiling `⌈fraction * weight⌉` where
the fraction is given as `Decimal` atomics, i.e.
`⌈atomics * weight / 10^18⌉` computed by exact integer ceiling division. -/
def ceil_frac (weight : Nat) (fraction_atomics : Nat) : Nat :=
  (fraction_atomics * weight + DECIMAL_FRACTIONAL - 1) / DECIMAL_FRACTIONAL

/-- The precondition under which every subtraction performed by
`is_passed` and `is_rejected` stays in range: the abstain bucket does not
exceed the snapshot total weight, and, per policy, the absolute count does
not exceed the total weight (for the rejection branch's
`total_weight - weight_needed`) and the pass fraction does not exceed one
(for the rejection branches' `Decimal::one() - fraction`). -/
def no_underflow (p : Proposal) : Prop :=
  p.votes.abstain ≤ p.total_weight ∧
  (match p.threshold with
   | Threshold.AbsoluteCount weight_needed => weight_needed ≤ p.total_weight
   | Threshold.AbsolutePercentage percentage_needed =>
       percentage_needed ≤ DECIMAL_FRACTIONAL
   | Threshold.ThresholdQuorum threshold _ => threshold ≤ DECIMAL_FRACTIONAL)

/-- Mismatch outcome shared by every validation helper: a `DifferentAppID`
error with zero external queries issued. -/
def mismatch_ok (res : Except ContractError Unit × List FuryQuery) : Prop :=
  res = (Except.error ContractError.DifferentAppID, [])

/-- Matching-id outcome shared by every validation helper: exactly the one
expected query is issued, and a `found = false` response becomes
`ProposalError` carrying the response's `err` verbatim. -/
def match_ok (querier : Querier) (query : FuryQuery)
    (res : Except ContractError Unit × List FuryQuery) : Prop :=
  res.2 = [query] ∧
  ∀ r, querier query = Except.ok r → r.found = false →
    res.1 = Except.error (ContractError.ProposalError r.err)

/-- A fixed clock input used by the concrete scenarios. -/
def block0 : BlockInfo :=
  { height := 0, time := 0, chain_id := "" }

/-- A blank proposal the concrete scenarios adjust. -/
def baseProposal : Proposal :=
  { title := ""
    description := ""
    start_height := 0
    expires := Expiration.Never
    status := Status.Open
    threshold := Threshold.AbsoluteCount 1
    total_weight := 0
    votes := { yes := 0, no := 0, abstain := 0, veto := 0 }
    deposit := []
    proposer := ""
    token_denom := ""
    deposit_refunded := false
    min_deposit := 0
    deposit_denom := ""
    current_deposit := 0 }

/-- Concrete scenario C of the spec: `ThresholdQuorum` with
`total_weight = 100`, quorum 30 percent, threshold 50 percent, and a bare
`yes = 10` tally (quorum unmet). -/
def scenC : Proposal :=
  { baseProposal with
    threshold := Threshold.ThresholdQuorum (decimalPercent 50) (decimalPercent 30)
    total_weight := 100
    votes := { yes := 10, no := 0, abstain := 0, veto := 0 } }

/-- A quorum-met variant of scenario C: sixty yes votes out of one hundred. -/
def scenC2 : Proposal :=
  { scenC with
    votes := { yes := 60, no := 0, abstain := 0, veto := 0 } }

/-- A state with more cast weight than `total_weight` (the unenforced
invariant violated): fifty yes and fifty-one no under an
`AbsolutePercentage` bar of one half. -/
def cexBoth : Proposal :=
  { baseProposal with
    threshold := Threshold.AbsolutePercentage (decimalPercent 50)
    total_weight := 100
    votes := { yes := 50, no := 51, abstain := 0, veto := 0 } }

/-- A proposal whose configured pass fraction exceeds one, while the
abstain bucket stays within the total weight. -/
def cexOverOne : Proposal :=
  { baseProposal with
    threshold := Threshold.AbsolutePercentage (decimalPercent 200)
    total_weight := 100
    votes := { yes := 0, no := 0, abstain := 0, veto := 0 } }

/-- A proposal whose abstain bucket exceeds the snapshot total weight. -/
def cexAbstain : Proposal :=
  { baseProposal with
    threshold := Threshold.AbsolutePercentage (decimalPercent 50)
    total_weight := 5
    votes := { yes := 0, no := 0, abstain := 10, veto := 0 } }

/-- A proposal already stored as `Passed`, used to exercise terminality. -/
def passedProposal : Proposal :=
  { baseProposal with
    status := Status.Passed
    threshold := Threshold.ThresholdQuorum (decimalPercent 50) (decimalPercent 30)
    total_weight := 100
    votes := { yes := 60, no := 0, abstain := 0, veto := 0 } }

/-- A validator stub that reports every request as not found. -/
def stubQuerier : Querier :=
  fun _ => Except.ok { found := false, err := "not registered" }

/-! Helper lemmas. -/

lemma checkedSub_eq_some {a b c : Nat} :
    checkedSub a b = some c ↔ b ≤ a ∧ a - b = c := by
  unfold checkedSub
  split <;> simp_all

lemma checkedSub_eq_none {a b : Nat} :
    checkedSub a b = none ↔ a < b := by
  unfold checkedSub
  split <;> simp_all

lemma checkedSub_of_le {a b : Nat} (h : b ≤ a) : checkedSub a b = some (a - b) := by
  rw [checkedSub_eq_some]
  exact ⟨h, rfl⟩

lemma abstain_le_total (v : Votes) : v.abstain ≤ v.total := by
  unfold Votes.total
  omega

lemma yes_no_le_total_sub_abstain (v : Votes) :
    v.yes + v.no ≤ v.total - v.abstain := by
  unfold Votes.total
  omega

/-- Splitting a pool `D` across a fraction and its complement: the two
rounded-up requirements jointly cover the whole pool, despite the
intermediate floor at `10^18`. -/
lemma div_ceil_split (x y D : Nat)
    (h : x + y = 1000000000000000000000000000 * D) :
    D ≤ (x / 1000000000000000000 + 1000000000 - 1) / 1000000000 +
        (y / 1000000000000000000 + 1000000000 - 1) / 1000000000 := by
  omega

/-- The requirements for a fraction and for its complement jointly cover
the whole pool. -/
lemma votes_needed_add_compl (D a : Nat) (ha : a ≤ DECIMAL_FRACTIONAL) :
    D ≤ votes_needed D a + votes_needed D (DECIMAL_FRACTIONAL - a) := by
  have hsplit : a * (1000000000 * D) +
      (1000000000000000000 - a) * (1000000000 * D)
      = 1000000000000000000000000000 * D := by
    rw [← Nat.add_mul]
    have hsum : a + (1000000000000000000 - a) = 1000000000000000000 := by
      unfold DECIMAL_FRACTIONAL at ha
      omega
    rw [hsum]
    ring
  simp only [votes_needed, PRECISION_FACTOR, DECIMAL_FRACTIONAL]
  exact div_ceil_split _ _ D hsplit

/-- For fractions representable at the contract's `10^9` precision, the
computed requirement is exactly the ceiling. -/
lemma votes_needed_ninedigit (w b : Nat) :
    votes_needed w (b * 1000000000) = ceil_frac w (b * 1000000000) := by
  simp only [votes_needed, ceil_frac, PRECISION_FACTOR, DECIMAL_FRACTIONAL]
  have h1 : b * 1000000000 * (1000000000 * w) =
      b * w * 1000000000000000000 := by ring
  have h2 : b * 1000000000 * w = b * w * 1000000000 := by ring
  rw [h1, h2, Nat.mul_div_cancel _ (by norm_num : (0:Nat) < 1000000000000000000)]
  generalize b * w = m
  omega

/-- When the stored status is already terminal, `current_status` returns
it unchanged (and evaluates neither decision function). -/
lemma current_status_nonopen (p : Proposal) (b : BlockInfo)
    (h : p.status ≠ Status.Open) :
    p.current_status b = some p.status := by
  unfold Proposal.current_status
  simp [h]

/-- A single dispatch-layer mutation never moves a non-`Open` status. -/
lemma step_preserves_nonopen {p q : Proposal} {op : Op}
    (h : p.status ≠ Status.Open) (hs : step p op = some q) :
    q.status = p.status := by
  cases op with
  | CastVote v w =>
      simp only [step] at hs
      cases hs
      rfl
  | UpdateStatus b =>
      simp only [step, Proposal.update_status, current_status_nonopen p b h,
        Option.map_some'] at hs
      cases hs
      rfl

/-- No sequence of dispatch-layer mutations moves a non-`Open` status. -/
lemma runOps_preserves_nonopen :
    ∀ (ops : List Op) (p q : Proposal), p.status ≠ Status.Open →
      runOps p ops = some q → q.status = p.status := by
  intro ops
  induction ops with
  | nil =>
      intro p q h hr
      simp only [runOps] at hr
      cases hr
      rfl
  | cons op ops ih =>
      intro p q h hr
      simp only [runOps, Option.bind_eq_some] at hr
      obtain ⟨r, hstep, hrest⟩ := hr
      have hst := step_preserves_nonopen h hstep
      have hq := ih r q (by rw [hst]; exact h) hrest
      rw [hq, hst]

lemma run_validation_query_match_ok (querier : Querier) (query : FuryQuery) :
    match_ok querier query (run_validation_query querier query) := by
  constructor
  · unfold run_validation_query
    cases hq : querier query
    · rfl
    · simp only
      split <;> rfl
  · intro r hq hf
    simp [run_validation_query, hq, hf]

lemma mismatch_spec_of_ne (querier : Querier) {i j : Nat} (h : i ≠ j)
    (query : FuryQuery) :
    mismatch_ok (if i ≠ j then
        (Except.error ContractError.DifferentAppID, ([] : List FuryQuery))
      else run_validation_query querier query) := by
  rw [if_pos h]
  rfl

lemma match_spec_self (querier : Querier) (i : Nat) (query : FuryQuery) :
    match_ok querier query (if i ≠ i then
        (Except.error ContractError.DifferentAppID, ([] : List FuryQuery))
      else run_validation_query querier query) := by
  rw [if_neg (fun h => h rfl)]
  exact run_validation_query_match_ok querier query

/-! Claim theorems. -/

/-- C1 (counterexample): `votes_needed` does not always equal the exact
ceiling, and can round below it: for the `Decimal`-representable fraction
`10^-18` (atomics `1`) and weight `1`, the code returns `0` while the
exact ceiling `⌈10^-18 * 1⌉` is `1` — fewer votes than a true majority
requires. -/
theorem C1_rounding_cex :
    votes_needed 1 1 = 0 ∧ ceil_frac 1 1 = 1 :=
  ⟨by decide, by decide⟩

/-- C1 (amended): for every fraction representable at the contract's
`10^9` fixed-point precision (atomics a multiple of `10^9`, which covers
every `Decimal::percent` value), `votes_needed` equals the exact ceiling
`⌈fraction * weight⌉` for every weight; moreover `votes_needed 0 f = 0`
for every fraction, and `votes_needed 15 (1/2) = 8`. -/
theorem C1_rounding_amended :
    (∀ w b : Nat,
        votes_needed w (b * 1000000000) = ceil_frac w (b * 1000000000)) ∧
    (∀ a : Nat, votes_needed 0 a = 0) ∧
    votes_needed 15 (decimalPercent 50) = 8 := by
  refine ⟨votes_needed_ninedigit, ?_, by decide⟩
  intro a
  simp only [votes_needed, PRECISION_FACTOR, DECIMAL_FRACTIONAL,
    Nat.mul_zero, Nat.zero_div]

/-- C2 (counterexample): without the unenforced invariant
`votes.total() ≤ total_weight`, a proposal can be simultaneously passed
and rejected: fifty yes plus fifty-one no out of a snapshot total weight
of one hundred, under an `AbsolutePercentage` bar of one half. -/
theorem C2_never_both_cex :
    cexBoth.is_passed block0 = some true ∧
    cexBoth.is_rejected block0 = some true ∧
    cexBoth.total_weight < cexBoth.votes.total :=
  ⟨by decide, by decide, by decide⟩

/-- C2 (amended): under the caller obligation
`votes.total() ≤ total_weight`, `is_passed` and `is_rejected` are never
both true for the same state and block, for all three threshold
policies. -/
theorem C2_never_both_amended (p : Proposal) (b : BlockInfo)
    (hinv : p.votes.total ≤ p.total_weight) :
    ¬(p.is_passed b = some true ∧ p.is_rejected b = some true) := by
  rintro ⟨hp, hr⟩
  have htot : p.votes.total
      = p.votes.yes + p.votes.no + p.votes.abstain + p.votes.veto := rfl
  cases hth : p.threshold with
  | AbsoluteCount weight_needed =>
      simp only [Proposal.is_passed, hth, Option.some.injEq,
        decide_eq_true_eq] at hp
      simp only [Proposal.is_rejected, hth] at hr
      split at hr
      · simp at hr
      · rename_i weight heq
        rw [checkedSub_eq_some] at heq
        simp only [Option.some.injEq, decide_eq_true_eq] at hr
        omega
  | AbsolutePercentage percentage_needed =>
      simp only [Proposal.is_passed, hth] at hp
      simp only [Proposal.is_rejected, hth] at hr
      split at hp
      · simp at hp
      · rename_i pool heqp
        split at hr
        · simp at hr
        · rename_i pool2 heqp2
          split at hr
          · simp at hr
          · rename_i opposing heqo
            rw [checkedSub_eq_some] at heqp heqp2 heqo
            simp only [Option.some.injEq, decide_eq_true_eq] at hp hr
            obtain ⟨hab, hpool⟩ := heqp
            obtain ⟨-, hpool2⟩ := heqp2
            obtain ⟨ha, hopp⟩ := heqo
            subst hpool hpool2 hopp
            have hcompl := votes_needed_add_compl
              (p.total_weight - p.votes.abstain) percentage_needed ha
            have hyn := yes_no_le_total_sub_abstain p.votes
            omega
  | ThresholdQuorum threshold quorum =>
      simp only [Proposal.is_passed, hth] at hp
      simp only [Proposal.is_rejected, hth] at hr
      split at hp
      · simp at hp
      · rename_i hquorum
        cases hexp : p.expires.is_expired b with
        | true =>
            simp only [hexp, if_true] at hp hr
            split at hp
            · simp at hp
            · rename_i opinions heqp
              split at hr
              · simp at hr
              · rename_i opinions2 heqp2
                split at hr
                · simp at hr
                · rename_i opposing heqo
                  rw [checkedSub_eq_some] at heqp heqp2 heqo
                  simp only [Option.some.injEq, decide_eq_true_eq] at hp hr
                  obtain ⟨hab, hpool⟩ := heqp
                  obtain ⟨-, hpool2⟩ := heqp2
                  obtain ⟨ha, hopp⟩ := heqo
                  subst hpool hpool2 hopp
                  have hcompl := votes_needed_add_compl
                    (p.votes.total - p.votes.abstain) threshold ha
                  have hyn := yes_no_le_total_sub_abstain p.votes
                  omega
        | false =>
            simp only [hexp, Bool.false_eq_true, if_false] at hp hr
            split at hp
            · simp at hp
            · rename_i possible heqp
              split at hr
              · simp at hr
              · rename_i possible2 heqp2
                split at hr
                · simp at hr
                · rename_i opposing heqo
                  rw [checkedSub_eq_some] at heqp heqp2 heqo
                  simp only [Option.some.injEq, decide_eq_true_eq] at hp hr
                  obtain ⟨hab, hpool⟩ := heqp
                  obtain ⟨-, hpool2⟩ := heqp2
                  obtain ⟨ha, hopp⟩ := heqo
                  subst hpool hpool2 hopp
                  have hcompl := votes_needed_add_compl
                    (p.total_weight - p.votes.abstain) threshold ha
                  have hyn := yes_no_le_total_sub_abstain p.votes
                  omega

/-- C2 (witness): the amended theorem applied to concrete scenario C,
whose tally respects the invariant. -/
theorem C2_never_both_witness :
    ¬(scenC.is_passed block0 = some true ∧
      scenC.is_rejected block0 = some true) :=
  C2_never_both_amended scenC block0 (by decide)

/-- C3: under `ThresholdQuorum`, `is_passed` is false whenever the quorum
is unmet; once the quorum is met it compares `yes` against the bar over
the cast opinions (total minus abstain) when expired, and over the full
possible pool (total weight minus abstain) when not expired.  Concrete
scenario C (quorum unmet) is neither passed nor rejected and stays
`Open`. -/
theorem C3_threshold_quorum_passed :
    (∀ (p : Proposal) (b : BlockInfo) (t q : Nat),
      p.threshold = Threshold.ThresholdQuorum t q →
      (p.votes.total < votes_needed p.total_weight q →
        p.is_passed b = some false) ∧
      (votes_needed p.total_weight q ≤ p.votes.total →
        (p.expires.is_expired b = true →
          p.is_passed b = some (decide
            (votes_needed (p.votes.total - p.votes.abstain) t ≤ p.votes.yes))) ∧
        (p.expires.is_expired b = false → p.votes.abstain ≤ p.total_weight →
          p.is_passed b = some (decide
            (votes_needed (p.total_weight - p.votes.abstain) t ≤ p.votes.yes))))) ∧
    (scenC.is_passed block0 = some false ∧
     scenC.is_rejected block0 = some false ∧
     scenC.current_status block0 = some Status.Open) := by
  refine ⟨?_, by decide, by decide, by decide⟩
  intro p b t q hth
  constructor
  · intro hlt
    simp only [Proposal.is_passed, hth, if_pos hlt]
  · intro hge
    have hnlt : ¬p.votes.total < votes_needed p.total_weight q :=
      Nat.not_lt.2 hge
    constructor
    · intro hexp
      have habs := abstain_le_total p.votes
      simp only [Proposal.is_passed, hth, if_neg hnlt, hexp, if_true,
        checkedSub_of_le habs]
    · intro hexp hab
      simp only [Proposal.is_passed, hth, if_neg hnlt, hexp,
        Bool.false_eq_true, if_false, checkedSub_of_le hab]

/-- C3 (witness): the quorum-unmet branch applied to scenario C, and the
quorum-met pre-expiration branch applied to its sixty-yes variant. -/
theorem C3_witness :
    scenC.is_passed block0 = some false ∧
    scenC2.is_passed block0 = some true := by
  constructor
  · exact (C3_threshold_quorum_passed.1 scenC block0
      (decimalPercent 50) (decimalPercent 30) rfl).1 (by decide)
  · have h := ((C3_threshold_quorum_passed.1 scenC2 block0
      (decimalPercent 50) (decimalPercent 30) rfl).2 (by decide)).2
      (by decide) (by decide)
    exact h.trans (by decide)

/-- C4: under `ThresholdQuorum`, `is_rejected` never consults the quorum
field and compares `no` strictly against the bar for the complementary
fraction `1 - threshold`, with the same expired/non-expired denominator
switch as `is_passed`. -/
theorem C4_threshold_quorum_rejected :
    ∀ (p : Proposal) (b : BlockInfo) (t q : Nat),
      p.threshold = Threshold.ThresholdQuorum t q → t ≤ DECIMAL_FRACTIONAL →
      (p.expires.is_expired b = true →
        p.is_rejected b = some (decide
          (votes_needed (p.votes.total - p.votes.abstain)
            (DECIMAL_FRACTIONAL - t) < p.votes.no))) ∧
      (p.expires.is_expired b = false → p.votes.abstain ≤ p.total_weight →
        p.is_rejected b = some (decide
          (votes_needed (p.total_weight - p.votes.abstain)
            (DECIMAL_FRACTIONAL - t) < p.votes.no))) ∧
      (∀ q' : Nat,
        ({ p with threshold := Threshold.ThresholdQuorum t q' } : Proposal).is_rejected b
          = p.is_rejected b) := by
  intro p b t q hth ht
  refine ⟨?_, ?_, ?_⟩
  · intro hexp
    have habs := abstain_le_total p.votes
    simp only [Proposal.is_rejected, hth, hexp, if_true,
      checkedSub_of_le habs, checkedSub_of_le ht]
  · intro hexp hab
    simp only [Proposal.is_rejected, hth, hexp, Bool.false_eq_true, if_false,
      checkedSub_of_le hab, checkedSub_of_le ht]
  · intro q'
    simp only [Proposal.is_rejected, hth]

/-- C4 (witness): in scenario C (not expired, bar 50 percent) no `no`
votes are cast, so the proposal is not rejected; and replacing the quorum
by any other value leaves `is_rejected` unchanged. -/
theorem C4_witness :
    scenC.is_rejected block0 = some false ∧
    ({ scenC with
        threshold :=
          Threshold.ThresholdQuorum (decimalPercent 50) (decimalPercent 99) }
      : Proposal).is_rejected block0 = scenC.is_rejected block0 := by
  have h := C4_threshold_quorum_rejected scenC block0
    (decimalPercent 50) (decimalPercent 30) rfl (by decide)
  exact ⟨(h.2.1 (by decide) (by decide)).trans (by decide),
    h.2.2 (decimalPercent 99)⟩

/-- C5: `current_status` resolves in order — a non-`Open` stored status is
returned unchanged; otherwise `Passed` as soon as `is_passed` holds (taking
precedence over rejection and expiration); otherwise `Rejected` when
`is_rejected` holds or the proposal is expired; otherwise `Open`.  It is a
pure function of the proposal and block, and storing its result once
(`update_status`) makes a second `update_status` with the same block a
no-op. -/
theorem C5_status_resolution (p : Proposal) (b : BlockInfo) :
    (p.status ≠ Status.Open → p.current_status b = some p.status) ∧
    (p.status = Status.Open → p.is_passed b = some true →
      p.current_status b = some Status.Passed) ∧
    (∀ r : Bool, p.status = Status.Open → p.is_passed b = some false →
      p.is_rejected b = some r →
      p.current_status b = some
        (if r || p.expires.is_expired b then Status.Rejected else Status.Open)) ∧
    (∀ p' : Proposal, p.update_status b = some p' →
      p'.update_status b = some p') := by
  refine ⟨current_status_nonopen p b, ?_, ?_, ?_⟩
  · intro hopen hp
    simp only [Proposal.current_status, if_pos hopen, hp]
  · intro r hopen hp hr
    simp only [Proposal.current_status, if_pos hopen, hp, hr]
    split <;> rfl
  · intro p' hup
    simp only [Proposal.update_status] at hup
    cases hcs : p.current_status b with
    | none => rw [hcs] at hup; cases hup
    | some s =>
        rw [hcs, Option.map_some'] at hup
        injection hup with hup'
        subst hup'
        by_cases hso : s = Status.Open
        · subst hso
          have hpo : p.status = Status.Open := by
            by_contra hne
            rw [current_status_nonopen p b hne] at hcs
            injection hcs with h
            exact hne h
          have hpp : ({ p with status := Status.Open } : Proposal) = p := by
            rw [← hpo]
          rw [hpp]
          simp only [Proposal.update_status, hcs, Option.map_some']
          rw [hpp]
        · have hne : ({ p with status := s } : Proposal).status ≠ Status.Open := hso
          simp only [Proposal.update_status,
            current_status_nonopen _ b hne, Option.map_some']

/-- C5 (witness): a stored `Passed` status is returned unchanged, and
scenario C resolves to `Open` via the ordered checks. -/
theorem C5_witness :
    passedProposal.current_status block0 = some Status.Passed ∧
    scenC.current_status block0 = some Status.Open := by
  constructor
  · exact (C5_status_resolution passedProposal block0).1 (by decide)
  · exact ((C5_status_resolution scenC block0).2.2.1 false rfl
      (by decide) (by decide)).trans (by decide)

/-- C6: once the stored status is `Passed` or `Rejected`, every sequence
of dispatch-layer mutations (further vote casts and status updates at
arbitrary blocks) leaves it unchanged, and every `current_status` query at
any block returns the same terminal status. -/
theorem C6_terminal_status (p : Proposal)
    (h : p.status = Status.Passed ∨ p.status = Status.Rejected) :
    ∀ (ops : List Op) (p' : Proposal), runOps p ops = some p' →
      p'.status = p.status ∧
      ∀ b : BlockInfo, p'.current_status b = some p.status := by
  intro ops p' hr
  have hne : p.status ≠ Status.Open := by
    rcases h with h | h <;> rw [h] <;> intro hc <;> cases hc
  have hst := runOps_preserves_nonopen ops p p' hne hr
  refine ⟨hst, ?_⟩
  intro b
  rw [current_status_nonopen p' b (by rw [hst]; exact hne), hst]

/-- C6 (witness): a passed proposal stays `Passed` after a hundred-weight
`no` vote followed by a status update. -/
theorem C6_witness :
    runOps passedProposal [Op.CastVote Vote.No 100, Op.UpdateStatus block0]
      = some ({ passedProposal with
          votes := { yes := 60, no := 100, abstain := 0, veto := 0 } }) ∧
    ({ passedProposal with
        votes := { yes := 60, no := 100, abstain := 0, veto := 0 } }
      : Proposal).current_status block0 = some Status.Passed := by
  refine ⟨by decide, ?_⟩
  have h := (C6_terminal_status passedProposal (Or.inl rfl)
    [Op.CastVote Vote.No 100, Op.UpdateStatus block0]
    ({ passedProposal with
        votes := { yes := 60, no := 100, abstain := 0, veto := 0 } })
    (by decide)).2 block0
  exact h

/-- C10 (counterexample): the claim's preconditions are not sufficient for
totality — with `abstain ≤ total_weight` satisfied (and no
`AbsoluteCount` policy in play), an `AbsolutePercentage` pass fraction of
200 percent still makes `is_rejected` abort, because
`Decimal::one() - percentage` underflows. -/
theorem C10_underflow_cex :
    cexOverOne.votes.abstain ≤ cexOverOne.total_weight ∧
    cexOverOne.is_rejected block0 = none :=
  ⟨by decide, by decide⟩

/-- C10 (amended): every subtraction in `is_passed` and `is_rejected`
stays in range — both functions return a value rather than aborting —
under the precondition `votes.abstain ≤ total_weight` strengthened with:
`weight_needed ≤ total_weight` for the `AbsoluteCount` rejection branch,
and pass fraction at most one for the percentage policies (whose rejection
branches compute `Decimal::one() - fraction`). -/
theorem C10_underflow_amended (p : Proposal) (b : BlockInfo)
    (hnu : no_underflow p) :
    (p.is_passed b).isSome ∧ (p.is_rejected b).isSome := by
  obtain ⟨hab, hpol⟩ := hnu
  have habs := abstain_le_total p.votes
  cases hth : p.threshold with
  | AbsoluteCount weight_needed =>
      simp only [hth] at hpol
      simp only [Proposal.is_passed, Proposal.is_rejected, hth,
        checkedSub_of_le hpol]
      exact ⟨rfl, rfl⟩
  | AbsolutePercentage percentage_needed =>
      simp only [hth] at hpol
      simp only [Proposal.is_passed, Proposal.is_rejected, hth,
        checkedSub_of_le hab, checkedSub_of_le hpol]
      exact ⟨rfl, rfl⟩
  | ThresholdQuorum threshold quorum =>
      simp only [hth] at hpol
      simp only [Proposal.is_passed, Proposal.is_rejected, hth,
        checkedSub_of_le hab, checkedSub_of_le hpol, checkedSub_of_le habs]
      constructor
      · split
        · rfl
        · split <;> rfl
      · split <;> rfl

/-- C10 (witness): the amended precondition holds for scenario C, so both
decision functions return a value there. -/
theorem C10_witness :
    (scenC.is_passed block0).isSome ∧ (scenC.is_rejected block0).isSome :=
  C10_underflow_amended scenC block0
    ⟨by decide, (by decide : decimalPercent 50 ≤ DECIMAL_FRACTIONAL)⟩

/-- C8: every validation helper taking a caller-supplied app id fails fast
with `DifferentAppID` and issues zero external queries when the id differs
from the one in the action payload; when they match, exactly the expected
query is issued, and a `found = false` response is surfaced as
`ProposalError` carrying the response's error string verbatim. -/
theorem C8_appid_mismatch :
    ∀ (querier : Querier) (a x y j : Nat) (ep : ExtendedPair),
      (a ≠ j → mismatch_ok (update_pairvault_stability querier a x j)) ∧
      match_ok querier (FuryQuery.UpdatePairsVaultQuery a x)
        (update_pairvault_stability querier a x a) ∧
      (a ≠ j → mismatch_ok (update_locker_lsr querier a x j)) ∧
      match_ok querier (FuryQuery.UpdateCollectorLookupTableQuery a x)
        (update_locker_lsr querier a x a) ∧
      (a ≠ j → mismatch_ok (remove_whitelist_asset_locker querier a x j)) ∧
      match_ok querier (FuryQuery.RemoveWhitelistAssetLockerQuery a x)
        (remove_whitelist_asset_locker querier a x a) ∧
      (a ≠ j → mismatch_ok (remove_whitelist_app_id_vault_interest querier a j)) ∧
      match_ok querier (FuryQuery.RemoveWhitelistAppIdVaultInterestQuery a)
        (remove_whitelist_app_id_vault_interest querier a a) ∧
      (a ≠ j → mismatch_ok (whitelist_app_id_liquidation querier a j)) ∧
      match_ok querier (FuryQuery.WhitelistAppIdLiquidationQuery a)
        (whitelist_app_id_liquidation querier a a) ∧
      (a ≠ j → mismatch_ok (remove_whitelist_app_id_liquidation querier a j)) ∧
      match_ok querier (FuryQuery.RemoveWhitelistAppIdLiquidationQuery a)
        (remove_whitelist_app_id_liquidation querier a a) ∧
      (a ≠ j → mismatch_ok (whitelist_asset_locker_rewards querier a x j)) ∧
      match_ok querier (FuryQuery.WhitelistAppIdLockerRewards a x)
        (whitelist_asset_locker_rewards querier a x a) ∧
      (a ≠ j → mismatch_ok (whitelist_asset_locker_eligible querier a x j)) ∧
      match_ok querier (FuryQuery.WhiteListedAssetQuery a x)
        (whitelist_asset_locker_eligible querier a x a) ∧
      (a ≠ j → mismatch_ok (collector_lookup_table querier a x y j)) ∧
      match_ok querier (FuryQuery.CollectorLookupTableQuery a x y)
        (collector_lookup_table querier a x y a) ∧
      (a ≠ j → mismatch_ok (auction_mapping_for_app querier a j)) ∧
      match_ok querier (FuryQuery.AuctionMappingForAppQuery a)
        (auction_mapping_for_app querier a a) ∧
      (ep.app_mapping_id_param ≠ j →
        mismatch_ok (add_extended_pair_vault querier j ep)) ∧
      match_ok querier (extended_pair_query ep)
        (add_extended_pair_vault querier ep.app_mapping_id_param ep) ∧
      (a ≠ j → mismatch_ok (whitelist_app_id_vault_interest querier a j)) ∧
      match_ok querier (FuryQuery.WhitelistAppIdVaultInterest a)
        (whitelist_app_id_vault_interest querier a a) ∧
      (a ≠ j → mismatch_ok (set_esm_params querier a j)) ∧
      match_ok querier (FuryQuery.AddESMTriggerParamsForAppQuery a)
        (set_esm_params querier a a) := by
  intro querier a x y j ep
  refine ⟨fun h => mismatch_spec_of_ne querier h _, match_spec_self querier a _,
    fun h => mismatch_spec_of_ne querier h _, match_spec_self querier a _,
    fun h => mismatch_spec_of_ne querier h _, match_spec_self querier a _,
    fun h => mismatch_spec_of_ne querier h _, match_spec_self querier a _,
    fun h => mismatch_spec_of_ne querier h _, match_spec_self querier a _,
    fun h => mismatch_spec_of_ne querier h _, match_spec_self querier a _,
    fun h => mismatch_spec_of_ne querier h _, match_spec_self querier a _,
    fun h => mismatch_spec_of_ne querier h _, match_spec_self querier a _,
    fun h => mismatch_spec_of_ne querier h _, match_spec_self querier a _,
    fun h => mismatch_spec_of_ne querier h _, match_spec_self querier a _,
    fun h => mismatch_spec_of_ne querier h _,
    match_spec_self querier ep.app_mapping_id_param _,
    fun h => mismatch_spec_of_ne querier h _, match_spec_self querier a _,
    fun h => mismatch_spec_of_ne querier h _, match_spec_self querier a _⟩

/-- C8 (witness): with a stub validator that reports everything as
missing, an id mismatch yields `DifferentAppID` with no query issued,
while matching ids issue the expected query and surface the stub's error
string. -/
theorem C8_witness :
    mismatch_ok (update_pairvault_stability stubQuerier 1 2 3) ∧
    match_ok stubQuerier (FuryQuery.UpdatePairsVaultQuery 1 2)
      (update_pairvault_stability stubQuerier 1 2 1) := by
  have h := C8_appid_mismatch stubQuerier 1 2 0 3
    { app_mapping_id_param := 0, pair_id_param := 0, stability_fee_param := 0,
      closing_fee_param := 0, draw_down_fee_param := 0, debt_ceiling_param := 0,
      debt_floor_param := 0, pair_name_param := "" }
  exact ⟨h.1 (by decide), h.2.1⟩

/-- C9: `votes_needed` is monotonically non-decreasing in the weight (for
every fraction) and in the fraction (for fractions in the unit interval,
as the claim states it). -/
theorem C9_votes_needed_monotone :
    (∀ w1 w2 a : Nat, w1 ≤ w2 → votes_needed w1 a ≤ votes_needed w2 a) ∧
    (∀ w a1 a2 : Nat, 0 < a1 → a1 ≤ a2 → a2 ≤ DECIMAL_FRACTIONAL →
      votes_needed w a1 ≤ votes_needed w a2) := by
  constructor
  · intro w1 w2 a h
    unfold votes_needed
    have h1 : a * (PRECISION_FACTOR * w1) ≤ a * (PRECISION_FACTOR * w2) :=
      Nat.mul_le_mul_left _ (Nat.mul_le_mul_left _ h)
    have h2 := Nat.div_le_div_right (c := DECIMAL_FRACTIONAL) h1
    exact Nat.div_le_div_right (by omega)
  · intro w a1 a2 _ h _
    unfold votes_needed
    have h1 : a1 * (PRECISION_FACTOR * w) ≤ a2 * (PRECISION_FACTOR * w) :=
      Nat.mul_le_mul_right _ h
    have h2 := Nat.div_le_div_right (c := DECIMAL_FRACTIONAL) h1
    exact Nat.div_le_div_right (by omega)

/-- C9 witness: monotonicity at concrete weights 3 ≤ 5 under the 50
percent fraction, and at concrete fractions 30 ≤ 60 percent under weight
10. -/
theorem C9_witness :
    votes_needed 3 (decimalPercent 50) ≤ votes_needed 5 (decimalPercent 50) ∧
    votes_needed 10 (decimalPercent 30) ≤ votes_needed 10 (decimalPercent 60) :=
  ⟨C9_votes_needed_monotone.1 3 5 (decimalPercent 50) (by decide),
   C9_votes_needed_monotone.2 10 (decimalPercent 30) (decimalPercent 60)
     (by decide) (by decide) (by decide)⟩

/-- C7: `validate_threshold` rejects a threshold outside
`[50 percent, 100 percent]` first with `InvalidThreshold`, then a zero
quorum with `ZeroQuorumThreshold`, then a quorum above one with
`UnreachableQuorumThreshold`, and accepts everything else; in particular
a 110 percent threshold, a zero quorum, and a 200 percent quorum each
produce their named error. -/
theorem C7_validate_threshold_spec :
    (∀ t q : Nat,
      (validate_threshold t q = Except.error ContractError.InvalidThreshold ↔
        (decimalPercent 100 < t ∨ t < decimalPercent 50)) ∧
      (validate_threshold t q = Except.error ContractError.ZeroQuorumThreshold ↔
        (decimalPercent 50 ≤ t ∧ t ≤ decimalPercent 100 ∧ q = 0)) ∧
      (validate_threshold t q =
          Except.error ContractError.UnreachableQuorumThreshold ↔
        (decimalPercent 50 ≤ t ∧ t ≤ decimalPercent 100 ∧
          DECIMAL_FRACTIONAL < q)) ∧
      (validate_threshold t q = Except.ok () ↔
        (decimalPercent 50 ≤ t ∧ t ≤ decimalPercent 100 ∧ 0 < q ∧
          q ≤ DECIMAL_FRACTIONAL))) ∧
    validate_threshold (decimalPercent 110) (decimalPercent 30) =
      Except.error ContractError.InvalidThreshold ∧
    validate_threshold (decimalPercent 100) 0 =
      Except.error ContractError.ZeroQuorumThreshold ∧
    validate_threshold (decimalPercent 100) (decimalPercent 200) =
      Except.error ContractError.UnreachableQuorumThreshold := by
  refine ⟨?_, by rfl, by rfl, by rfl⟩
  intro t q
  simp only [validate_threshold, decimalPercent, DECIMAL_FRACTIONAL]
  split_ifs with h1 h2 h3 <;> refine ⟨?_, ?_, ?_, ?_⟩ <;> simp_all <;> omega

end Gov
